import Mathlib

/-
Verification of the network traffic monitor (src/ntm.py) against its
design specification.

The embedding models the Python source shallowly:
- byte counters are integers (`Int`), timestamps and rates rationals (`ℚ`);
- the OS counter map returned by `psutil.net_io_counters(pernic=True)` is an
  association list from interface name to counters, passed explicitly to the
  operations that read it;
- `TrafficCollector.__init__` and `TrafficCollector.sample` become pure
  functions over an explicit collector state, with the exceptional exits
  (`RuntimeError`, `ValueError`, `sys.exit(1)`) reflected in result types;
- the driver loop's repeated `collector.sample()` calls become `runTicks`
  over a list of (snapshot, clock-reading) pairs.
-/

namespace NTM

/-- Cumulative sent/received byte counters for one interface or an aggregate:
the `bytes_sent` / `bytes_recv` pair taken from `psutil.net_io_counters`. -/
structure Counters where
  sent : Int
  recv : Int
deriving DecidableEq, Inhabited

/-- An OS snapshot: the per-interface counter map that
`psutil.net_io_counters(pernic=True)` returns at some instant, as an
association list from interface name to its counters. -/
abbrev Snapshot := List (String × Counters)

/-- The exceptions counter reading can raise in `src/ntm.py`:
`RuntimeError("No network interfaces found")` at construction and
`ValueError(f"Interface '...' not found")` from `_read_counters`. -/
inductive CollectorError where
  | noInterfaces
  | interfaceNotFound (name : String)
deriving DecidableEq

/-- `TrafficCollector._read_counters` (src/ntm.py lines 48-61): for the
selector `"all"` it sums `bytes_sent` / `bytes_recv` over every interface in
the snapshot; otherwise it looks the interface up and raises `ValueError`
when it is absent. -/
def readCounters (iface : String) (snap : Snapshot) : Except CollectorError Counters :=
  if iface = "all" then
    .ok { sent := (snap.map (fun p => p.2.sent)).sum,
          recv := (snap.map (fun p => p.2.recv)).sum }
  else
    match snap.lookup iface with
    | some c => .ok c
    | none => .error (.interfaceNotFound iface)

/-- The mutable state of a `TrafficCollector` (src/ntm.py lines 34-46). -/
structure Collector where
  iface : String
  use_ema : Bool
  alpha : ℚ
  start_time : ℚ
  last_time : ℚ
  start_counters : Counters
  prev_counters : Counters
  sent_ema : ℚ
  recv_ema : ℚ
  ema_initialized : Bool
deriving DecidableEq

/-- `TrafficCollector.__init__` (src/ntm.py lines 29-46): raises
`RuntimeError` when the snapshot reports no interfaces at all, otherwise
performs the initial `_read_counters` (propagating its failure) and seeds
`start_counters = prev_counters`, `start_time = last_time = now`, zero EMA
state with `ema_initialized = False`. -/
def Collector.init (iface : String) (use_ema : Bool) (alpha : ℚ)
    (snap : Snapshot) (now : ℚ) : Except CollectorError Collector :=
  if snap.isEmpty then .error .noInterfaces
  else
    match readCounters iface snap with
    | .error e => .error e
    | .ok start =>
        .ok { iface := iface, use_ema := use_ema, alpha := alpha,
              start_time := now, last_time := now,
              start_counters := start, prev_counters := start,
              sent_ema := 0, recv_ema := 0, ema_initialized := false }

/-- The dict that `TrafficCollector.sample` returns (src/ntm.py lines
94-107), field names matching the dict keys. -/
structure Sample where
  iface : String
  interval : ℚ
  sent_Bps : ℚ
  recv_Bps : ℚ
  sent_ema_Bps : ℚ
  recv_ema_Bps : ℚ
  ema_enabled : Bool
  ema_alpha : ℚ
  total_sent_B : Int
  total_recv_B : Int
  uptime : ℚ
  timestamp : ℚ
deriving DecidableEq, Inhabited

/-- The body of `TrafficCollector.sample` (src/ntm.py lines 63-107) after a
successful counter read: interval floor, instantaneous rates, EMA
seed/update/pass-through per direction, cumulative totals, state advance, and
the returned dict. Yields the emitted sample together with the advanced
collector state. -/
def Collector.sampleOk (c : Collector) (current : Counters) (now : ℚ) :
    Sample × Collector :=
  let interval : ℚ := max (now - c.last_time) (1 / 100)
  let sent_rate : ℚ := ((current.sent - c.prev_counters.sent : ℤ) : ℚ) / interval
  let recv_rate : ℚ := ((current.recv - c.prev_counters.recv : ℤ) : ℚ) / interval
  let sent_ema : ℚ :=
    if c.use_ema then
      if c.ema_initialized then c.alpha * sent_rate + (1 - c.alpha) * c.sent_ema
      else sent_rate
    else sent_rate
  let recv_ema : ℚ :=
    if c.use_ema then
      if c.ema_initialized then c.alpha * recv_rate + (1 - c.alpha) * c.recv_ema
      else recv_rate
    else recv_rate
  let ema_initialized : Bool := if c.use_ema then true else c.ema_initialized
  let total_sent : Int := current.sent - c.start_counters.sent
  let total_recv : Int := current.recv - c.start_counters.recv
  ({ iface := c.iface, interval := interval,
     sent_Bps := sent_rate, recv_Bps := recv_rate,
     sent_ema_Bps := sent_ema, recv_ema_Bps := recv_ema,
     ema_enabled := c.use_ema, ema_alpha := c.alpha,
     total_sent_B := total_sent, total_recv_B := total_recv,
     uptime := now - c.start_time, timestamp := now },
   { c with prev_counters := current, last_time := now,
            sent_ema := sent_ema, recv_ema := recv_ema,
            ema_initialized := ema_initialized })

/-- Outcome of one `sample()` call: either the fatal
`print("Network interface lost. Exiting."); sys.exit(1)` path taken when
`_read_counters` raises, or an emitted sample plus the advanced state. -/
inductive SampleResult where
  | interfaceLost
  | emitted (s : Sample) (c : Collector)
deriving DecidableEq

/-- `TrafficCollector.sample` (src/ntm.py lines 63-107): only the counter
read can fail; a `ValueError`/`KeyError` there is caught and turns into the
terminal interface-lost exit, emitting nothing. -/
def Collector.sample (c : Collector) (snap : Snapshot) (now : ℚ) : SampleResult :=
  match readCounters c.iface snap with
  | .error _ => .interfaceLost
  | .ok current =>
      let p := c.sampleOk current now
      .emitted p.1 p.2

/-- One driver-loop tick: the OS snapshot visible at that tick and the
`time.time()` reading taken at its start. -/
abbrev Tick := Snapshot × ℚ

/-- The driver loop of `main` (src/ntm.py lines 244-253) restricted to the
collector: run `sample()` once per tick, collecting the emitted samples; on
the interface-lost exit the process dies, so no sample is emitted for that
tick, later ticks never run, and the final state is `none`. -/
def runTicks (c : Collector) : List Tick → List Sample × Option Collector
  | [] => ([], some c)
  | t :: rest =>
      match c.sample t.1 t.2 with
      | .interfaceLost => ([], none)
      | .emitted s c' =>
          let r := runTicks c' rest
          (s :: r.1, r.2)

/-- Truncation toward zero: Python's `int(...)` applied to a number. -/
def truncToInt (q : ℚ) : ℤ := if 0 ≤ q then ⌊q⌋ else -⌊-q⌋

/-- The fill ratio computed inside `AnsiRenderer._bar` (src/ntm.py line 141):
`min(value / max_value, 1.0)`. -/
def barRatio (value max_value : ℚ) : ℚ := min (value / max_value) 1

/-- The cross-tick state of `AnsiRenderer` (src/ntm.py lines 134-138). -/
structure AnsiRenderer where
  view : String
  max_sent : ℚ
  max_recv : ℚ
  bar_width : ℕ
deriving DecidableEq

/-- `AnsiRenderer.__init__` (src/ntm.py lines 134-138): maxima seeded at 1.0
and a fixed 50-cell bar width. -/
def AnsiRenderer.init (view : String) : AnsiRenderer :=
  { view := view, max_sent := 1, max_recv := 1, bar_width := 50 }

/-- The filled-cell count of `AnsiRenderer._bar` (src/ntm.py line 142):
`int(ratio * self.bar_width)`. -/
def AnsiRenderer.barFilled (r : AnsiRenderer) (value max_value : ℚ) : ℤ :=
  truncToInt (barRatio value max_value * (r.bar_width : ℚ))

/-- `AnsiRenderer._bar` (src/ntm.py lines 140-143): the bar string, filled
cells then blanks; Python string repetition with a negative count is empty. -/
def AnsiRenderer.bar (r : AnsiRenderer) (value max_value : ℚ) : String :=
  let filled := r.barFilled value max_value
  String.mk (List.replicate filled.toNat '█') ++
    String.mk (List.replicate ((r.bar_width : ℤ) - filled).toNat ' ')

/-- The bar-driving metric pair chosen in `AnsiRenderer.render` (src/ntm.py
lines 153-156): instantaneous rates in `raw` view, smoothed rates otherwise. -/
def AnsiRenderer.barMetrics (r : AnsiRenderer) (d : Sample) : ℚ × ℚ :=
  if r.view = "raw" then (d.sent_Bps, d.recv_Bps) else (d.sent_ema_Bps, d.recv_ema_Bps)

/-- The state mutation `AnsiRenderer.render` performs each call (src/ntm.py
lines 158-159): ceilings move to the max of themselves and this tick's bar
metric, before the bars are drawn against them. -/
def AnsiRenderer.renderUpdate (r : AnsiRenderer) (d : Sample) : AnsiRenderer :=
  let m := r.barMetrics d
  { r with max_sent := max r.max_sent m.1, max_recv := max r.max_recv m.2 }

/-- The (max_sent, max_recv) ceiling pair observed after each successive
render call on a sample sequence. -/
def AnsiRenderer.maxTrace (r : AnsiRenderer) : List Sample → List (ℚ × ℚ)
  | [] => []
  | d :: rest =>
      let r' := r.renderUpdate d
      (r'.max_sent, r'.max_recv) :: r'.maxTrace rest

/-- Python `f"{x:.1f}"` rounding: the number of tenths in the one-decimal
rendering, rounding ties to even. -/
def roundTenths (q : ℚ) : ℤ :=
  let x := q * 10
  let fl := ⌊x⌋
  if x - fl < 1 / 2 then fl
  else if 1 / 2 < x - fl then fl + 1
  else if fl % 2 = 0 then fl else fl + 1

/-- Python `f"{value:.1f}"`: one decimal place. -/
def fmt1 (q : ℚ) : String :=
  let t := roundTenths q
  let sign := if t < 0 then "-" else ""
  let a := t.natAbs
  sign ++ toString (a / 10) ++ "." ++ toString (a % 10)

/-- The scaling loop of `humanize_bytes` (src/ntm.py lines 18-20): divide by
1024 while `value >= 1024` and the unit index is below the last rung. The
index rises by one per iteration and stops at 4, so fuel 4 runs the loop to
completion from index 0. -/
def humanizeAux (value : ℚ) (idx fuel : ℕ) : ℚ × ℕ :=
  match fuel with
  | 0 => (value, idx)
  | fuel + 1 =>
      if 1024 ≤ value ∧ idx < 4 then humanizeAux (value / 1024) (idx + 1) fuel
      else (value, idx)

/-- The unit ladder of `humanize_bytes` (src/ntm.py line 15). -/
def unitLadder : List String := ["B", "KB", "MB", "GB", "TB"]

/-- `humanize_bytes` (src/ntm.py lines 14-23): scale, format with one
decimal place and the reached unit, append `/s` exactly when `rate`. -/
def humanize_bytes (value : ℚ) (rate : Bool) : String :=
  let p := humanizeAux value 0 4
  let suffix := if rate then "/s" else ""
  fmt1 p.1 ++ " " ++ unitLadder.getD p.2 "B" ++ suffix

/-! Concrete fixtures used by witness theorems. -/

/-- A one-interface snapshot, as at construction time. -/
def snapA : Snapshot := [("eth0", { sent := 100, recv := 200 })]

/-- The same interface observed later with larger counters. -/
def snapB : Snapshot := [("eth0", { sent := 1100, recv := 2200 })]

/-- A snapshot in which `eth0` has disappeared. -/
def snapLost : Snapshot := [("wlan0", { sent := 5, recv := 6 })]

/-- A collector as built by `Collector.init "eth0" true (1/5) snapA 0`. -/
def cA : Collector :=
  { iface := "eth0", use_ema := true, alpha := 1 / 5,
    start_time := 0, last_time := 0,
    start_counters := { sent := 100, recv := 200 },
    prev_counters := { sent := 100, recv := 200 },
    sent_ema := 0, recv_ema := 0, ema_initialized := false }

/-- Like `cA` but with EMA disabled. -/
def cNoEma : Collector := { cA with use_ema := false }

/-- Like `cA` but with the aggregate selector. -/
def cAll : Collector := { cA with iface := "all" }

/-- A two-tick run schedule for `cA`. -/
def ticksAB : List Tick := [(snapA, 1), (snapB, 2)]

/-- The sample `cA` emits on a tick at time 0 reading `snapA`. -/
def sA0 : Sample := (cA.sampleOk { sent := 100, recv := 200 } 0).1

/-- The collector state after that tick. -/
def cA0 : Collector := (cA.sampleOk { sent := 100, recv := 200 } 0).2

/-- The sample `cNoEma` emits on a tick at time 1 reading `snapA`. -/
def sN0 : Sample := (cNoEma.sampleOk { sent := 100, recv := 200 } 1).1

/-- The collector state after that tick. -/
def cN0 : Collector := (cNoEma.sampleOk { sent := 100, recv := 200 } 1).2

/-- A sample whose bar-driving metric is `v` in every dashboard view. -/
def demoSample (v : ℚ) : Sample :=
  { iface := "all", interval := 1, sent_Bps := v, recv_Bps := v,
    sent_ema_Bps := v, recv_ema_Bps := v, ema_enabled := true, ema_alpha := 1 / 5,
    total_sent_B := 0, total_recv_B := 0, uptime := 0, timestamp := 0 }

/-- The bar-metric sequence 10, 50, 5, 80, 20 from the spec's dashboard
ceiling property. -/
def demoSamples : List Sample :=
  [demoSample 10, demoSample 50, demoSample 5, demoSample 80, demoSample 20]

/-! Step lemmas about one `sample()` call. -/

theorem sampleOk_fst_sent_ema (c : Collector) (cur : Counters) (now : ℚ) :
    (c.sampleOk cur now).1.sent_ema_Bps = (c.sampleOk cur now).2.sent_ema := rfl

theorem sampleOk_fst_recv_ema (c : Collector) (cur : Counters) (now : ℚ) :
    (c.sampleOk cur now).1.recv_ema_Bps = (c.sampleOk cur now).2.recv_ema := rfl

theorem sampleOk_snd_use_ema (c : Collector) (cur : Counters) (now : ℚ) :
    (c.sampleOk cur now).2.use_ema = c.use_ema := rfl

theorem sampleOk_snd_alpha (c : Collector) (cur : Counters) (now : ℚ) :
    (c.sampleOk cur now).2.alpha = c.alpha := rfl

theorem sampleOk_snd_iface (c : Collector) (cur : Counters) (now : ℚ) :
    (c.sampleOk cur now).2.iface = c.iface := rfl

theorem sampleOk_snd_start_counters (c : Collector) (cur : Counters) (now : ℚ) :
    (c.sampleOk cur now).2.start_counters = c.start_counters := rfl

theorem sampleOk_emitted {c : Collector} {snap : Snapshot} {cur : Counters} (now : ℚ)
    (hr : readCounters c.iface snap = .ok cur) :
    c.sample snap now = .emitted (c.sampleOk cur now).1 (c.sampleOk cur now).2 := by
  simp [Collector.sample, hr]

theorem sample_lost {c : Collector} {snap : Snapshot} {e : CollectorError} (now : ℚ)
    (hr : readCounters c.iface snap = .error e) :
    c.sample snap now = .interfaceLost := by
  simp [Collector.sample, hr]

theorem sample_emitted_elim {c : Collector} {snap : Snapshot} {now : ℚ} {s : Sample}
    {c' : Collector} (h : c.sample snap now = .emitted s c') :
    ∃ cur, readCounters c.iface snap = .ok cur ∧
      s = (c.sampleOk cur now).1 ∧ c' = (c.sampleOk cur now).2 := by
  unfold Collector.sample at h
  cases hr : readCounters c.iface snap with
  | error e => rw [hr] at h; exact absurd h (by simp)
  | ok cur =>
      rw [hr] at h
      simp only [SampleResult.emitted.injEq] at h
      exact ⟨cur, rfl, h.1.symm, h.2.symm⟩

/-! Equations for the driver-loop runner. -/

theorem runTicks_nil (c : Collector) : runTicks c [] = ([], some c) := rfl

theorem runTicks_cons_lost {c : Collector} {t : Tick} (ts : List Tick)
    (h : c.sample t.1 t.2 = .interfaceLost) :
    runTicks c (t :: ts) = ([], none) := by
  simp [runTicks, h]

theorem runTicks_cons_emitted {c : Collector} {t : Tick} {s : Sample} {c' : Collector}
    (ts : List Tick) (h : c.sample t.1 t.2 = .emitted s c') :
    runTicks c (t :: ts) = (s :: (runTicks c' ts).1, (runTicks c' ts).2) := by
  simp [runTicks, h]

/-- The EMA recurrence along a sample sequence: each sample's smoothed rate
blends its own instantaneous rate with the previous smoothed value through
weight `α`, in each direction independently. -/
def emaChain (α : ℚ) (prevSent prevRecv : ℚ) : List Sample → Prop
  | [] => True
  | s :: rest =>
      s.sent_ema_Bps = α * s.sent_Bps + (1 - α) * prevSent ∧
      s.recv_ema_Bps = α * s.recv_Bps + (1 - α) * prevRecv ∧
      emaChain α s.sent_ema_Bps s.recv_ema_Bps rest

theorem runTicks_emaChain_inited (ts : List Tick) :
    ∀ c : Collector, c.use_ema = true → c.ema_initialized = true →
      emaChain c.alpha c.sent_ema c.recv_ema (runTicks c ts).1 := by
  induction ts with
  | nil => intro c _ _; rw [runTicks_nil]; trivial
  | cons t ts ih =>
      intro c hu hi
      cases hr : readCounters c.iface t.1 with
      | error e => rw [runTicks_cons_lost ts (sample_lost t.2 hr)]; trivial
      | ok cur =>
          rw [runTicks_cons_emitted ts (sampleOk_emitted t.2 hr)]
          refine ⟨?_, ?_, ?_⟩
          · simp [Collector.sampleOk, hu, hi]
          · simp [Collector.sampleOk, hu, hi]
          · exact ih (c.sampleOk cur t.2).2 (by simp [sampleOk_snd_use_ema, hu])
              (by simp [Collector.sampleOk, hu])

theorem emaChain_getD (ss : List Sample) :
    ∀ (α a b : ℚ), emaChain α a b ss →
      ∀ i, i + 1 < ss.length →
        ((ss.getD (i + 1) default).sent_ema_Bps =
            α * (ss.getD (i + 1) default).sent_Bps +
              (1 - α) * (ss.getD i default).sent_ema_Bps ∧
         (ss.getD (i + 1) default).recv_ema_Bps =
            α * (ss.getD (i + 1) default).recv_Bps +
              (1 - α) * (ss.getD i default).recv_ema_Bps) := by
  induction ss with
  | nil => intro α a b _ i hi; simp at hi
  | cons s rest ih =>
      intro α a b h i hi
      obtain ⟨_, _, h3⟩ := h
      cases i with
      | zero =>
          cases rest with
          | nil => simp at hi
          | cons s' rest' =>
              obtain ⟨g1, g2, _⟩ := h3
              simpa [List.getD] using ⟨g1, g2⟩
      | succ i =>
          have := ih α s.sent_ema_Bps s.recv_ema_Bps h3 i (by simpa using hi)
          simpa [List.getD] using this

/-- C1: with `use_ema = true` and `alpha` in (0,1], over any run of ticks the
smoothed rates satisfy the EMA recurrence: the first emitted sample's
smoothed rate equals its instantaneous rate exactly, and every later
sample's smoothed rate is `alpha` times its instantaneous rate plus
`(1 - alpha)` times the previous sample's smoothed rate, independently for
the sent and recv directions. -/
theorem ema_recurrence_over_run (c : Collector) (ts : List Tick)
    (hu : c.use_ema = true) (hi : c.ema_initialized = false)
    (h0 : 0 < c.alpha) (h1 : c.alpha ≤ 1) :
    (0 < (runTicks c ts).1.length →
       ((runTicks c ts).1.getD 0 default).sent_ema_Bps =
           ((runTicks c ts).1.getD 0 default).sent_Bps ∧
       ((runTicks c ts).1.getD 0 default).recv_ema_Bps =
           ((runTicks c ts).1.getD 0 default).recv_Bps) ∧
    (∀ i, i + 1 < (runTicks c ts).1.length →
       ((runTicks c ts).1.getD (i + 1) default).sent_ema_Bps =
           c.alpha * ((runTicks c ts).1.getD (i + 1) default).sent_Bps +
             (1 - c.alpha) * ((runTicks c ts).1.getD i default).sent_ema_Bps ∧
       ((runTicks c ts).1.getD (i + 1) default).recv_ema_Bps =
           c.alpha * ((runTicks c ts).1.getD (i + 1) default).recv_Bps +
             (1 - c.alpha) * ((runTicks c ts).1.getD i default).recv_ema_Bps) := by
  clear h0 h1
  cases ts with
  | nil =>
      rw [runTicks_nil]
      exact ⟨fun h => absurd h (by simp), fun i h => absurd h (by simp)⟩
  | cons t ts =>
      cases hr : readCounters c.iface t.1 with
      | error e =>
          rw [runTicks_cons_lost ts (sample_lost t.2 hr)]
          exact ⟨fun h => absurd h (by simp), fun i h => absurd h (by simp)⟩
      | ok cur =>
          rw [runTicks_cons_emitted ts (sampleOk_emitted t.2 hr)]
          have hseed_s : (c.sampleOk cur t.2).1.sent_ema_Bps =
              (c.sampleOk cur t.2).1.sent_Bps := by
            simp [Collector.sampleOk, hu, hi]
          have hseed_r : (c.sampleOk cur t.2).1.recv_ema_Bps =
              (c.sampleOk cur t.2).1.recv_Bps := by
            simp [Collector.sampleOk, hu, hi]
          have htail : emaChain c.alpha (c.sampleOk cur t.2).1.sent_ema_Bps
              (c.sampleOk cur t.2).1.recv_ema_Bps
              (runTicks (c.sampleOk cur t.2).2 ts).1 :=
            runTicks_emaChain_inited ts (c.sampleOk cur t.2).2
              (by simp [sampleOk_snd_use_ema, hu]) (by simp [Collector.sampleOk, hu])
          have hfull : emaChain c.alpha (c.sampleOk cur t.2).1.sent_Bps
              (c.sampleOk cur t.2).1.recv_Bps
              ((c.sampleOk cur t.2).1 :: (runTicks (c.sampleOk cur t.2).2 ts).1) := by
            refine ⟨?_, ?_, ?_⟩
            · rw [hseed_s]; ring
            · rw [hseed_r]; ring
            · exact htail
          constructor
          · intro _
            simpa [List.getD] using ⟨hseed_s, hseed_r⟩
          · intro i hlen
            exact emaChain_getD _ c.alpha _ _ hfull i hlen

/-- Witness for C1: the recurrence instantiated on a concrete two-tick run. -/
theorem ema_recurrence_over_run_instance :
    (0 < (runTicks cA ticksAB).1.length →
       ((runTicks cA ticksAB).1.getD 0 default).sent_ema_Bps =
           ((runTicks cA ticksAB).1.getD 0 default).sent_Bps ∧
       ((runTicks cA ticksAB).1.getD 0 default).recv_ema_Bps =
           ((runTicks cA ticksAB).1.getD 0 default).recv_Bps) ∧
    (∀ i, i + 1 < (runTicks cA ticksAB).1.length →
       ((runTicks cA ticksAB).1.getD (i + 1) default).sent_ema_Bps =
           cA.alpha * ((runTicks cA ticksAB).1.getD (i + 1) default).sent_Bps +
             (1 - cA.alpha) * ((runTicks cA ticksAB).1.getD i default).sent_ema_Bps ∧
       ((runTicks cA ticksAB).1.getD (i + 1) default).recv_ema_Bps =
           cA.alpha * ((runTicks cA ticksAB).1.getD (i + 1) default).recv_Bps +
             (1 - cA.alpha) * ((runTicks cA ticksAB).1.getD i default).recv_ema_Bps) :=
  ema_recurrence_over_run cA ticksAB rfl rfl (by norm_num [cA]) (by norm_num [cA])

/-- C2: every emitted sample's interval is `max(now - lastTickTime, 0.01)`,
hence at least 0.01 and positive, equal to exactly 0.01 whenever the raw
clock difference is below 0.01, and it is the divisor of both instantaneous
rates. -/
theorem interval_floor_spec (c : Collector) (snap : Snapshot) (now : ℚ) (s : Sample)
    (c' : Collector) (h : c.sample snap now = .emitted s c') :
    s.interval = max (now - c.last_time) (1 / 100) ∧
    (1 / 100 : ℚ) ≤ s.interval ∧
    (now - c.last_time < 1 / 100 → s.interval = 1 / 100) ∧
    0 < s.interval ∧
    (∃ cur, readCounters c.iface snap = .ok cur ∧
       s.sent_Bps = ((cur.sent - c.prev_counters.sent : ℤ) : ℚ) / s.interval ∧
       s.recv_Bps = ((cur.recv - c.prev_counters.recv : ℤ) : ℚ) / s.interval) := by
  obtain ⟨cur, hr, hs, _⟩ := sample_emitted_elim h
  subst hs
  have hint : (c.sampleOk cur now).1.interval = max (now - c.last_time) (1 / 100) := rfl
  refine ⟨hint, ?_, ?_, ?_, cur, hr, rfl, rfl⟩
  · rw [hint]; exact le_max_right _ _
  · intro hlt; rw [hint, max_eq_right hlt.le]
  · rw [hint]; exact lt_of_lt_of_le (by norm_num) (le_max_right _ _)

/-- Witness for C2: the interval floor on a tick whose timestamps coincide. -/
theorem interval_floor_spec_instance :
    sA0.interval = max ((0 : ℚ) - cA.last_time) (1 / 100) ∧
    (1 / 100 : ℚ) ≤ sA0.interval ∧
    ((0 : ℚ) - cA.last_time < 1 / 100 → sA0.interval = 1 / 100) ∧
    0 < sA0.interval ∧
    (∃ cur, readCounters cA.iface snapA = .ok cur ∧
       sA0.sent_Bps = ((cur.sent - cA.prev_counters.sent : ℤ) : ℚ) / sA0.interval ∧
       sA0.recv_Bps = ((cur.recv - cA.prev_counters.recv : ℤ) : ℚ) / sA0.interval) :=
  interval_floor_spec cA snapA 0 sA0 cA0 (by rfl)

/-- C3: over any successful prefix of a run, the i-th emitted sample's
cumulative totals equal that tick's counter read minus the construction-time
baseline `start_counters`, per direction, regardless of tick count, spacing,
or the rate and EMA computations in between. -/
theorem cumulative_totals_over_run (ts : List Tick) :
    ∀ (c : Collector) (i : ℕ), i < (runTicks c ts).1.length →
      ∃ cur, readCounters c.iface (ts.getD i ([], 0)).1 = .ok cur ∧
        ((runTicks c ts).1.getD i default).total_sent_B =
            cur.sent - c.start_counters.sent ∧
        ((runTicks c ts).1.getD i default).total_recv_B =
            cur.recv - c.start_counters.recv := by
  induction ts with
  | nil => intro c i hi; rw [runTicks_nil] at hi; simp at hi
  | cons t ts ih =>
      intro c i hi
      cases hr : readCounters c.iface t.1 with
      | error e =>
          rw [runTicks_cons_lost ts (sample_lost t.2 hr)] at hi
          simp at hi
      | ok cur =>
          rw [runTicks_cons_emitted ts (sampleOk_emitted t.2 hr)] at hi ⊢
          cases i with
          | zero => exact ⟨cur, by simpa using hr, rfl, rfl⟩
          | succ i =>
              have hlen : i < (runTicks (c.sampleOk cur t.2).2 ts).1.length := by
                simpa using hi
              obtain ⟨cur', h1, h2, h3⟩ := ih (c.sampleOk cur t.2).2 i hlen
              refine ⟨cur', ?_, ?_, ?_⟩
              · simpa [sampleOk_snd_iface] using h1
              · simpa [sampleOk_snd_start_counters] using h2
              · simpa [sampleOk_snd_start_counters] using h3

/-- Witness for C3: the totals of the second sample of a concrete run. -/
theorem cumulative_totals_over_run_instance :
    ∃ cur, readCounters cA.iface ((ticksAB.getD 1 ([], 0)).1) = .ok cur ∧
      ((runTicks cA ticksAB).1.getD 1 default).total_sent_B =
          cur.sent - cA.start_counters.sent ∧
      ((runTicks cA ticksAB).1.getD 1 default).total_recv_B =
          cur.recv - cA.start_counters.recv :=
  cumulative_totals_over_run ticksAB cA 1 (by decide)

/-- C4: when a later read finds the named interface missing, `sample()`
takes the terminal interface-lost exit: no sample is emitted for that tick
and no further ticks run. -/
theorem interface_lost_is_fatal (c : Collector) (snap : Snapshot) (now : ℚ)
    (rest : List Tick) (hif : c.iface ≠ "all") (hmiss : snap.lookup c.iface = none) :
    c.sample snap now = .interfaceLost ∧
    runTicks c ((snap, now) :: rest) = ([], none) := by
  have hr : readCounters c.iface snap = .error (.interfaceNotFound c.iface) := by
    simp [readCounters, hif, hmiss]
  exact ⟨sample_lost now hr, runTicks_cons_lost rest (sample_lost now hr)⟩

/-- Witness for C4: `eth0` vanishes from the snapshot on a concrete tick. -/
theorem interface_lost_is_fatal_instance :
    cA.sample snapLost 3 = .interfaceLost ∧
    runTicks cA ((snapLost, 3) :: []) = ([], none) :=
  interface_lost_is_fatal cA snapLost 3 [] (by decide) (by decide)

/-- C5: the dashboard ceilings are seeded at 1.0, move to the max of
themselves and this tick's bar metric on every render, and never decrease;
on the metric sequence 10, 50, 5, 80, 20 the tracker reads 10, 50, 50, 80,
80; the third tick's fill ratio is 5/50 = 0.10; and against a positive
ceiling the filled cell count never exceeds the bar width. -/
theorem dashboard_bar_ceiling_spec :
    (∀ v : String,
        (AnsiRenderer.init v).max_sent = 1 ∧ (AnsiRenderer.init v).max_recv = 1) ∧
    (∀ (r : AnsiRenderer) (d : Sample),
        (r.renderUpdate d).max_sent = max r.max_sent (r.barMetrics d).1 ∧
        (r.renderUpdate d).max_recv = max r.max_recv (r.barMetrics d).2 ∧
        r.max_sent ≤ (r.renderUpdate d).max_sent ∧
        r.max_recv ≤ (r.renderUpdate d).max_recv) ∧
    ((AnsiRenderer.init "both").maxTrace demoSamples =
        [(10, 10), (50, 50), (50, 50), (80, 80), (80, 80)]) ∧
    barRatio 5 50 = 1 / 10 ∧
    (∀ (r : AnsiRenderer) (value maxv : ℚ), 0 < maxv →
        r.barFilled value maxv ≤ (r.bar_width : ℤ)) := by
  refine ⟨?_, ?_, ?_, ?_, ?_⟩
  · intro v; exact ⟨rfl, rfl⟩
  · intro r d
    exact ⟨rfl, rfl, le_max_left _ _, le_max_left _ _⟩
  · simp only [AnsiRenderer.maxTrace, AnsiRenderer.renderUpdate, AnsiRenderer.barMetrics,
      AnsiRenderer.init, demoSamples, demoSample]
    norm_num [max_def]
  · rw [barRatio, min_eq_left (by norm_num)]; norm_num
  · intro r value maxv _
    have h1 : barRatio value maxv ≤ 1 := min_le_right _ _
    have h2 : (0 : ℚ) ≤ (r.bar_width : ℚ) := by positivity
    have hq : barRatio value maxv * (r.bar_width : ℚ) ≤ (r.bar_width : ℚ) := by
      nlinarith
    rw [AnsiRenderer.barFilled, truncToInt]
    split
    · calc ⌊barRatio value maxv * (r.bar_width : ℚ)⌋
          ≤ ⌊((r.bar_width : ℕ) : ℚ)⌋ := Int.floor_le_floor hq
        _ = (r.bar_width : ℤ) := Int.floor_natCast _
    · next hneg =>
        have h3 : (0 : ℤ) ≤ ⌊-(barRatio value maxv * (r.bar_width : ℚ))⌋ := by
          apply Int.floor_nonneg.mpr
          linarith [not_le.mp hneg]
        omega

/-- Witness for C5: the fill bound at the third tick's concrete inputs. -/
theorem dashboard_bar_ceiling_spec_instance :
    (AnsiRenderer.init "both").barFilled 5 50 ≤
      (((AnsiRenderer.init "both").bar_width : ℕ) : ℤ) :=
  dashboard_bar_ceiling_spec.2.2.2.2 (AnsiRenderer.init "both") 5 50 (by norm_num)

/-- Python's string append with the empty string is the identity. -/
theorem str_append_empty (s : String) : s ++ "" = s := by
  cases s
  show String.mk _ = String.mk _
  simp [String.append]

/-- C6: humanize divides by 1024 while the value is at least 1024 and the
unit ladder has not reached TB, formats to one decimal with the reached
unit, and appends the rate suffix exactly when asked; inputs below 1024
(zero and negatives included) skip the scaling loop; the spec's three
round-trip examples hold. -/
theorem humanize_bytes_spec :
    humanize_bytes 1536 false = "1.5 KB" ∧
    humanize_bytes 1048576 true = "1.0 MB/s" ∧
    humanize_bytes 500 false = "500.0 B" ∧
    (∀ v : ℚ, v < 1024 → ∀ r : Bool,
        humanize_bytes v r = fmt1 v ++ " " ++ "B" ++ (if r then "/s" else "")) ∧
    (∀ v : ℚ, humanize_bytes v true = humanize_bytes v false ++ "/s") := by
  have h1536 : humanizeAux 1536 0 4 = (3 / 2, 1) := by norm_num [humanizeAux]
  have hmb : humanizeAux 1048576 0 4 = (1, 2) := by norm_num [humanizeAux]
  have h500 : humanizeAux 500 0 4 = (500, 0) := by norm_num [humanizeAux]
  refine ⟨?_, ?_, ?_, ?_, ?_⟩
  · have h2 : roundTenths (3 / 2) = 15 := by norm_num [roundTenths]
    simp only [humanize_bytes, h1536, fmt1, h2]
    decide
  · have h2 : roundTenths 1 = 10 := by norm_num [roundTenths]
    simp only [humanize_bytes, hmb, fmt1, h2]
    decide
  · have h2 : roundTenths 500 = 5000 := by norm_num [roundTenths]
    simp only [humanize_bytes, h500, fmt1, h2]
    decide
  · intro v hv r
    have haux : humanizeAux v 0 4 = (v, 0) := by
      rw [humanizeAux, if_neg]
      simp [not_le.mpr hv]
    simp only [humanize_bytes, haux, unitLadder]
    cases r <;> simp [str_append_empty]
  · intro v
    simp [humanize_bytes, str_append_empty]

/-- Witness for C6: the no-scaling clause applied at a small rate value. -/
theorem humanize_bytes_spec_instance :
    humanize_bytes 7 true = fmt1 7 ++ " " ++ "B" ++ (if true then "/s" else "") :=
  humanize_bytes_spec.2.2.2.1 7 (by norm_num) true

theorem runTicks_passthrough (ts : List Tick) :
    ∀ c : Collector, c.use_ema = false →
      ∀ s ∈ (runTicks c ts).1,
        s.sent_ema_Bps = s.sent_Bps ∧ s.recv_ema_Bps = s.recv_Bps := by
  induction ts with
  | nil => intro c _ s hs; rw [runTicks_nil] at hs; simp at hs
  | cons t ts ih =>
      intro c hu s hs
      cases hr : readCounters c.iface t.1 with
      | error e => rw [runTicks_cons_lost ts (sample_lost t.2 hr)] at hs; simp at hs
      | ok cur =>
          rw [runTicks_cons_emitted ts (sampleOk_emitted t.2 hr)] at hs
          rcases List.mem_cons.mp hs with h | h
          · subst h
            constructor <;> simp [Collector.sampleOk, hu]
          · exact ih (c.sampleOk cur t.2).2 (by simp [sampleOk_snd_use_ema, hu]) s h

/-- C7: with EMA disabled, every emitted sample's smoothed rate equals its
instantaneous rate in both directions, and the stored EMA state after each
tick is also updated to mirror that tick's instantaneous rates. -/
theorem ema_disabled_passthrough (c : Collector) (hu : c.use_ema = false) :
    (∀ ts : List Tick, ∀ s ∈ (runTicks c ts).1,
        s.sent_ema_Bps = s.sent_Bps ∧ s.recv_ema_Bps = s.recv_Bps) ∧
    (∀ (snap : Snapshot) (now : ℚ) (s : Sample) (c' : Collector),
        c.sample snap now = .emitted s c' →
        c'.sent_ema = s.sent_Bps ∧ c'.recv_ema = s.recv_Bps ∧
        s.sent_ema_Bps = s.sent_Bps ∧ s.recv_ema_Bps = s.recv_Bps) := by
  refine ⟨fun ts => runTicks_passthrough ts c hu, ?_⟩
  intro snap now s c' h
  obtain ⟨cur, _, hs, hc⟩ := sample_emitted_elim h
  subst hs; subst hc
  refine ⟨?_, ?_, ?_, ?_⟩ <;> simp [Collector.sampleOk, hu]

/-- Witness for C7: the pass-through on a concrete no-EMA tick. -/
theorem ema_disabled_passthrough_instance :
    cN0.sent_ema = sN0.sent_Bps ∧ cN0.recv_ema = sN0.recv_Bps ∧
    sN0.sent_ema_Bps = sN0.sent_Bps ∧ sN0.recv_ema_Bps = sN0.recv_Bps :=
  (ema_disabled_passthrough cNoEma rfl).2 snapA 1 sN0 cN0 (by rfl)

/-- C8: construction fails with the no-interfaces error on an empty
snapshot, fails with interface-not-found when a named selector is absent,
and any successful construction embeds a successful initial counter read as
its baseline, with `prev_counters` equal to it. -/
theorem construction_failure_spec :
    (∀ (iface : String) (u : Bool) (a now : ℚ),
        Collector.init iface u a [] now = .error .noInterfaces) ∧
    (∀ (iface : String) (u : Bool) (a now : ℚ) (snap : Snapshot),
        snap ≠ [] → iface ≠ "all" → snap.lookup iface = none →
        Collector.init iface u a snap now = .error (.interfaceNotFound iface)) ∧
    (∀ (iface : String) (u : Bool) (a now : ℚ) (snap : Snapshot) (c : Collector),
        Collector.init iface u a snap now = .ok c →
        readCounters iface snap = .ok c.start_counters ∧
        c.prev_counters = c.start_counters ∧
        c.start_time = now ∧ c.last_time = now ∧ c.ema_initialized = false) := by
  refine ⟨?_, ?_, ?_⟩
  · intro iface u a now; rfl
  · intro iface u a now snap hne hif hmiss
    have hsnap : snap.isEmpty = false := by
      cases snap with
      | nil => exact absurd rfl hne
      | cons _ _ => rfl
    simp [Collector.init, hsnap, readCounters, hif, hmiss]
  · intro iface u a now snap c h
    unfold Collector.init at h
    by_cases hsnap : snap.isEmpty
    · rw [if_pos hsnap] at h
      exact absurd h (by simp)
    · rw [if_neg hsnap] at h
      cases hr : readCounters iface snap with
      | error e => rw [hr] at h; exact absurd h (by simp)
      | ok start =>
          rw [hr] at h
          simp only [Except.ok.injEq] at h
          subst h
          exact ⟨rfl, rfl, rfl, rfl, rfl⟩

/-- Witness for C8: constructing against a snapshot without `eth0` fails. -/
theorem construction_failure_spec_instance :
    Collector.init "eth0" true (1 / 5) snapLost 0 =
      .error (.interfaceNotFound "eth0") :=
  construction_failure_spec.2.1 "eth0" true (1 / 5) 0 snapLost
    (by decide) (by decide) (by decide)

/-- C9: a successful `sample()` leaves the baseline counters, start time and
configuration untouched, and advances `prev_counters` to the counters just
read together with `last_time` to this tick's clock reading. -/
theorem sample_frame_spec (c : Collector) (snap : Snapshot) (now : ℚ) (s : Sample)
    (c' : Collector) (h : c.sample snap now = .emitted s c') :
    c'.start_counters = c.start_counters ∧
    c'.start_time = c.start_time ∧
    c'.iface = c.iface ∧
    c'.use_ema = c.use_ema ∧
    c'.alpha = c.alpha ∧
    c'.last_time = now ∧
    (∃ cur, readCounters c.iface snap = .ok cur ∧ c'.prev_counters = cur) := by
  obtain ⟨cur, hr, _, hc⟩ := sample_emitted_elim h
  subst hc
  exact ⟨rfl, rfl, rfl, rfl, rfl, rfl, cur, hr, rfl⟩

/-- Witness for C9: the frame condition on a concrete tick. -/
theorem sample_frame_spec_instance :
    cA0.start_counters = cA.start_counters ∧
    cA0.start_time = cA.start_time ∧
    cA0.iface = cA.iface ∧
    cA0.use_ema = cA.use_ema ∧
    cA0.alpha = cA.alpha ∧
    cA0.last_time = 0 ∧
    (∃ cur, readCounters cA.iface snapA = .ok cur ∧ cA0.prev_counters = cur) :=
  sample_frame_spec cA snapA 0 sA0 cA0 (by rfl)

/-- C10: under the `"all"` selector the counter read is total: it returns
the element-wise sum over whatever interfaces the snapshot reports, zero on
an empty snapshot, never an error; hence `sample()` always emits and never
takes the interface-lost exit, even when every interface has disappeared. -/
theorem all_selector_never_lost (c : Collector) (hall : c.iface = "all") :
    (∀ snap : Snapshot,
        readCounters c.iface snap =
          .ok { sent := (snap.map (fun p => p.2.sent)).sum,
                recv := (snap.map (fun p => p.2.recv)).sum }) ∧
    readCounters c.iface [] = .ok { sent := 0, recv := 0 } ∧
    (∀ (snap : Snapshot) (now : ℚ), ∃ s c2, c.sample snap now = .emitted s c2) ∧
    (∀ (snap : Snapshot) (now : ℚ), c.sample snap now ≠ .interfaceLost) := by
  have hread : ∀ snap : Snapshot,
      readCounters c.iface snap =
        .ok { sent := (snap.map (fun p => p.2.sent)).sum,
              recv := (snap.map (fun p => p.2.recv)).sum } := by
    intro snap
    simp [readCounters, hall]
  refine ⟨hread, ?_, ?_, ?_⟩
  · rw [hread]; simp
  · intro snap now
    exact ⟨_, _, sampleOk_emitted now (hread snap)⟩
  · intro snap now hlost
    rw [sampleOk_emitted now (hread snap)] at hlost
    exact absurd hlost (by simp)

/-- Witness for C10: the aggregate collector still emits on an empty
snapshot. -/
theorem all_selector_never_lost_instance :
    ∃ s c2, cAll.sample [] 5 = .emitted s c2 :=
  (all_selector_never_lost cAll rfl).2.2.1 [] 5

end NTM
